import Mathlib

/-!
Verification of the token-lifecycle subsystem of `spotifyfetch`
(`src/auth.rs`, `src/api.rs`), shallowly embedded in Lean 4.

Conventions of the embedding:
* Rust `u64` values are modelled as `Nat` together with explicit wrapping
  arithmetic modulo `2^64` where the source can underflow (release-profile
  semantics of `u64` subtraction; the debug profile would panic at the same
  inputs).
* Fallible operations return `Except` / `Option`; a Rust panic (an
  `.unwrap()` failure) is modelled by a dedicated `panicked` outcome, which
  is distinct from returning an error value to the caller.
* All I/O (file system, network, browser, inbound HTTP accept) is passed in
  explicitly as oracle data, and the sequence of externally visible actions
  is returned as an explicit event trace.
* External library behaviour (`serde_json`, `sha2`, `base64`, `rand`,
  `tiny_http`, `url`) is modelled from the libraries' documented semantics;
  everything else is translated directly from the repository source.
-/

namespace SpotifyFetch

/-- `2^64`, the modulus of Rust `u64` arithmetic. -/
def U64 : Nat := 18446744073709551616

/-- Wrapping `u64` subtraction `a - b` (valid for `a < 2^64`, `b ≤ 2^64`),
release-profile semantics. -/
def wrapSub64 (a b : Nat) : Nat := (a + U64 - b) % U64

/-- The persisted credential, `struct AuthToken` in `src/auth.rs`
(fields `access_token`, `refresh_token`, `expires_at: u64`). -/
structure AuthToken where
  access_token : String
  refresh_token : String
  expires_at : Nat
  deriving DecidableEq, Repr

/-- `AuthToken::is_expired` from `src/auth.rs`: `now >= self.expires_at - 60`,
with the current time `now` (seconds since the epoch) made explicit.  The
subtraction is Rust `u64` subtraction, which wraps around for
`expires_at < 60` (release profile; the debug profile panics there). -/
def AuthToken.is_expired (t : AuthToken) (now : Nat) : Bool :=
  decide (now ≥ wrapSub64 t.expires_at 60)

theorem wrapSub64_of_le {a b : Nat} (hb : b ≤ a) (ha : a < U64) :
    wrapSub64 a b = a - b := by
  unfold wrapSub64 U64 at *
  omega

/-- C2 (counterexample): the claim asserts the expiry test agrees with the
integer comparison `now ≥ T - 60` for every `T`, "including `T < 60`".  At
`T = 0`, `now = 0` the integer comparison holds (`0 ≥ -60`), yet the code's
wrapping `u64` subtraction makes `is_expired` return `false` (and the debug
profile would panic on the underflow instead of returning `true`). -/
theorem c2_expiry_underflow_counterexample :
    AuthToken.is_expired ⟨"a", "r", 0⟩ 0 = false ∧ ((0 : Int) ≥ (0 : Int) - 60) := by
  exact ⟨by decide, by decide⟩

/-- C2 (amended): for every credential whose `expires_at = T` satisfies
`60 ≤ T < 2^64`, `is_expired` returns `true` exactly when `now ≥ T - 60`,
and in particular returns `true` at `now = T - 60`.  (For `T < 60` the `u64`
subtraction underflows and the equivalence fails, so the claim's "including
`T < 60`" clause is dropped.) -/
theorem c2_expiry_margin (t : AuthToken) (now : Nat)
    (h60 : 60 ≤ t.expires_at) (hU : t.expires_at < U64) :
    (t.is_expired now = true ↔ now ≥ t.expires_at - 60) ∧
    t.is_expired (t.expires_at - 60) = true := by
  unfold AuthToken.is_expired
  rw [wrapSub64_of_le h60 hU]
  constructor
  · simp
  · simp

theorem c2_expiry_margin_witness :
    (60 ≤ (100 : Nat)) ∧ ((100 : Nat) < U64) ∧
    ((AuthToken.is_expired ⟨"a", "r", 100⟩ 40 = true ↔ 40 ≥ 100 - 60) ∧
      AuthToken.is_expired ⟨"a", "r", 100⟩ (100 - 60) = true) :=
  ⟨by decide, by norm_num [U64],
    c2_expiry_margin ⟨"a", "r", 100⟩ 40 (by decide) (by norm_num [U64])⟩

/-! ### JSON text model (serde_json, restricted to the shapes this program
reads and writes)

`serde_json::to_string_pretty` escapes `"`, `\` and control characters
(with the short escapes for 0x08/0x09/0x0A/0x0C/0x0D and lowercase
`\u00XX` for the rest) and writes all other characters raw.  The parser
below accepts exactly the escape sequences the serializer can emit; on
those inputs it behaves as `serde_json::from_str` does. -/

/-- Lowercase hex digit, as in serde_json's escape table. -/
def hexDigitLC (n : Nat) : Char :=
  if n < 10 then Char.ofNat (48 + n) else Char.ofNat (87 + n)

/-- serde_json's escaping of one character (codepoints: 34 `"`, 92 `\`). -/
def escChar (c : Char) : List Char :=
  if c.toNat = 34 then [Char.ofNat 92, Char.ofNat 34]
  else if c.toNat = 92 then [Char.ofNat 92, Char.ofNat 92]
  else if c.toNat = 8 then [Char.ofNat 92, 'b']
  else if c.toNat = 9 then [Char.ofNat 92, 't']
  else if c.toNat = 10 then [Char.ofNat 92, 'n']
  else if c.toNat = 12 then [Char.ofNat 92, 'f']
  else if c.toNat = 13 then [Char.ofNat 92, 'r']
  else if c.toNat < 32 then
    [Char.ofNat 92, 'u', '0', '0', hexDigitLC (c.toNat / 16), hexDigitLC (c.toNat % 16)]
  else [c]

/-- serde_json's escaping of a whole string body. -/
def escapeStr : List Char → List Char
  | [] => []
  | c :: rest => escChar c ++ escapeStr rest

/-- Value of one hex digit (`0-9`, `a-f`, `A-F`). -/
def hexVal (c : Char) : Option Nat :=
  if 48 ≤ c.toNat ∧ c.toNat ≤ 57 then some (c.toNat - 48)
  else if 97 ≤ c.toNat ∧ c.toNat ≤ 102 then some (c.toNat - 87)
  else if 65 ≤ c.toNat ∧ c.toNat ≤ 70 then some (c.toNat - 55)
  else none

/-- Prepend a decoded character to the result of a string-body parse. -/
def consFst (c : Char) : Option (List Char × List Char) → Option (List Char × List Char)
  | none => none
  | some (s, r) => some (c :: s, r)

/-- Parse a JSON string body up to (and consuming) the closing quote,
decoding the escape sequences serde_json can emit; returns the decoded
characters and the unconsumed remainder. -/
def parseStringBody (l : List Char) : Option (List Char × List Char) :=
  match l with
  | [] => none
  | c :: rest =>
    if c.toNat = 34 then some ([], rest)
    else if c.toNat = 92 then
      match rest with
      | [] => none
      | e :: rest2 =>
        if e.toNat = 34 then consFst (Char.ofNat 34) (parseStringBody rest2)
        else if e.toNat = 92 then consFst (Char.ofNat 92) (parseStringBody rest2)
        else if e.toNat = 98 then consFst (Char.ofNat 8) (parseStringBody rest2)
        else if e.toNat = 102 then consFst (Char.ofNat 12) (parseStringBody rest2)
        else if e.toNat = 110 then consFst (Char.ofNat 10) (parseStringBody rest2)
        else if e.toNat = 114 then consFst (Char.ofNat 13) (parseStringBody rest2)
        else if e.toNat = 116 then consFst (Char.ofNat 9) (parseStringBody rest2)
        else if e.toNat = 117 then
          match rest2 with
          | h1 :: h2 :: h3 :: h4 :: rest3 =>
            match hexVal h1, hexVal h2, hexVal h3, hexVal h4 with
            | some a, some b, some c2, some d =>
              consFst (Char.ofNat (((a * 16 + b) * 16 + c2) * 16 + d)) (parseStringBody rest3)
            | _, _, _, _ => none
          | _ => none
        else none
    else consFst c (parseStringBody rest)

/-- Decimal digits of a `Nat`, most significant first, as emitted by
serde_json for a `u64`. -/
def natDigits (n : Nat) : List Char :=
  if n < 10 then [Char.ofNat (48 + n)]
  else natDigits (n / 10) ++ [Char.ofNat (48 + n % 10)]
termination_by n
decreasing_by simp_wf; omega

/-- Is `c` an ASCII decimal digit? -/
def isDigitCh (c : Char) : Bool := decide (48 ≤ c.toNat ∧ c.toNat ≤ 57)

/-- Consume a maximal run of decimal digits, accumulating their value. -/
def parseNatAux (acc : Nat) (l : List Char) : Nat × List Char :=
  match l with
  | [] => (acc, [])
  | c :: rest =>
    if 48 ≤ c.toNat ∧ c.toNat ≤ 57 then parseNatAux (acc * 10 + (c.toNat - 48)) rest
    else (acc, c :: rest)

/-- Parse a JSON number (here: a nonempty run of decimal digits). -/
def parseNat1 (l : List Char) : Option (Nat × List Char) :=
  match l with
  | [] => none
  | c :: _ => if isDigitCh c then some (parseNatAux 0 l) else none

/-- Consume an expected literal text from the front of the input. -/
def expectLit : List Char → List Char → Option (List Char)
  | [], l => some l
  | _ :: _, [] => none
  | p :: ps, c :: cs => if c = p then expectLit ps cs else none

@[simp] theorem consFst_none (c : Char) : consFst c none = none := rfl

@[simp] theorem consFst_some (c : Char) (s r : List Char) :
    consFst c (some (s, r)) = some (c :: s, r) := rfl

@[simp] theorem escapeStr_nil : escapeStr [] = [] := rfl

@[simp] theorem escapeStr_cons (c : Char) (t : List Char) :
    escapeStr (c :: t) = escChar c ++ escapeStr t := rfl

@[simp] theorem toNat_ofNat34 : (Char.ofNat 34).toNat = 34 := by decide

@[simp] theorem toNat_ofNat92 : (Char.ofNat 92).toNat = 92 := by decide

@[simp] theorem toNat_b : ('b').toNat = 98 := by decide

@[simp] theorem toNat_t : ('t').toNat = 116 := by decide

@[simp] theorem toNat_n : ('n').toNat = 110 := by decide

@[simp] theorem toNat_f : ('f').toNat = 102 := by decide

@[simp] theorem toNat_r : ('r').toNat = 114 := by decide

@[simp] theorem toNat_u : ('u').toNat = 117 := by decide

theorem hexVal_zero : hexVal '0' = some 0 := by decide

theorem hexVal_hexDigitLC : ∀ n, n < 16 → hexVal (hexDigitLC n) = some n := by decide

theorem expectLit_append (p r : List Char) : expectLit p (p ++ r) = some r := by
  induction p with
  | nil => rfl
  | cons c cs ih => simp [expectLit, ih]

theorem escChar_34 {c : Char} (h : c.toNat = 34) :
    escChar c = [Char.ofNat 92, Char.ofNat 34] := by
  simp [escChar, h]

theorem escChar_92 {c : Char} (h : c.toNat = 92) :
    escChar c = [Char.ofNat 92, Char.ofNat 92] := by
  simp [escChar, h]

theorem escChar_8 {c : Char} (h : c.toNat = 8) : escChar c = [Char.ofNat 92, 'b'] := by
  simp [escChar, h]

theorem escChar_9 {c : Char} (h : c.toNat = 9) : escChar c = [Char.ofNat 92, 't'] := by
  simp [escChar, h]

theorem escChar_10 {c : Char} (h : c.toNat = 10) : escChar c = [Char.ofNat 92, 'n'] := by
  simp [escChar, h]

theorem escChar_12 {c : Char} (h : c.toNat = 12) : escChar c = [Char.ofNat 92, 'f'] := by
  simp [escChar, h]

theorem escChar_13 {c : Char} (h : c.toNat = 13) : escChar c = [Char.ofNat 92, 'r'] := by
  simp [escChar, h]

theorem escChar_ctrl {c : Char} (hlt : c.toNat < 32) (h34 : c.toNat ≠ 34)
    (h92 : c.toNat ≠ 92) (h8 : c.toNat ≠ 8) (h9 : c.toNat ≠ 9) (h10 : c.toNat ≠ 10)
    (h12 : c.toNat ≠ 12) (h13 : c.toNat ≠ 13) :
    escChar c = [Char.ofNat 92, 'u', '0', '0',
      hexDigitLC (c.toNat / 16), hexDigitLC (c.toNat % 16)] := by
  simp [escChar, hlt, h34, h92, h8, h9, h10, h12, h13]

theorem escChar_plain {c : Char} (hge : ¬ c.toNat < 32) (h34 : c.toNat ≠ 34)
    (h92 : c.toNat ≠ 92) : escChar c = [c] := by
  have h8 : c.toNat ≠ 8 := by omega
  have h9 : c.toNat ≠ 9 := by omega
  have h10 : c.toNat ≠ 10 := by omega
  have h12 : c.toNat ≠ 12 := by omega
  have h13 : c.toNat ≠ 13 := by omega
  simp [escChar, hge, h34, h92, h8, h9, h10, h12, h13]

theorem ofNat_toNat_eq {c : Char} {n : Nat} (h : c.toNat = n) : Char.ofNat n = c := by
  rw [← h, Char.ofNat_toNat]

/-- Parsing the serde_json escape of `s` followed by a closing quote
recovers `s` exactly and leaves the remainder untouched. -/
theorem parseStringBody_escapeStr (s rest : List Char) :
    parseStringBody (escapeStr s ++ Char.ofNat 34 :: rest) = some (s, rest) := by
  induction s with
  | nil =>
    rw [escapeStr_nil, List.nil_append, parseStringBody.eq_def]
    simp
  | cons c t ih =>
    rw [escapeStr_cons, List.append_assoc]
    by_cases h34 : c.toNat = 34
    · rw [escChar_34 h34]
      simp only [List.cons_append, List.nil_append]
      rw [parseStringBody.eq_def]
      simp [ih]
      exact ofNat_toNat_eq h34
    · by_cases h92 : c.toNat = 92
      · rw [escChar_92 h92]
        simp only [List.cons_append, List.nil_append]
        rw [parseStringBody.eq_def]
        simp [ih]
        exact ofNat_toNat_eq h92
      · by_cases h8 : c.toNat = 8
        · rw [escChar_8 h8]
          simp only [List.cons_append, List.nil_append]
          rw [parseStringBody.eq_def]
          simp [ih]
          exact ofNat_toNat_eq h8
        · by_cases h9 : c.toNat = 9
          · rw [escChar_9 h9]
            simp only [List.cons_append, List.nil_append]
            rw [parseStringBody.eq_def]
            simp [ih]
            exact ofNat_toNat_eq h9
          · by_cases h10 : c.toNat = 10
            · rw [escChar_10 h10]
              simp only [List.cons_append, List.nil_append]
              rw [parseStringBody.eq_def]
              simp [ih]
              exact ofNat_toNat_eq h10
            · by_cases h12 : c.toNat = 12
              · rw [escChar_12 h12]
                simp only [List.cons_append, List.nil_append]
                rw [parseStringBody.eq_def]
                simp [ih]
                exact ofNat_toNat_eq h12
              · by_cases h13 : c.toNat = 13
                · rw [escChar_13 h13]
                  simp only [List.cons_append, List.nil_append]
                  rw [parseStringBody.eq_def]
                  simp [ih]
                  exact ofNat_toNat_eq h13
                · by_cases hlt : c.toNat < 32
                  · rw [escChar_ctrl hlt h34 h92 h8 h9 h10 h12 h13]
                    simp only [List.cons_append, List.nil_append]
                    rw [parseStringBody.eq_def]
                    have ha : hexVal (hexDigitLC (c.toNat / 16)) = some (c.toNat / 16) :=
                      hexVal_hexDigitLC _ (by omega)
                    have hb : hexVal (hexDigitLC (c.toNat % 16)) = some (c.toNat % 16) :=
                      hexVal_hexDigitLC _ (by omega)
                    have hcode : Char.ofNat (((0 * 16 + 0) * 16 + c.toNat / 16) * 16
                        + c.toNat % 16) = c := by
                      rw [show ((0 * 16 + 0) * 16 + c.toNat / 16) * 16 + c.toNat % 16
                          = c.toNat from by omega]
                      exact Char.ofNat_toNat c
                    simp [ih, hexVal_zero, ha, hb]
                    rw [show c.toNat / 16 * 16 + c.toNat % 16 = c.toNat from by omega]
                    exact Char.ofNat_toNat c
                  · rw [escChar_plain hlt h34 h92]
                    simp only [List.cons_append, List.nil_append]
                    rw [parseStringBody.eq_def]
                    simp [ih, h34, h92]

theorem digit_toNat : ∀ n, n < 10 → (Char.ofNat (48 + n)).toNat = 48 + n := by decide

theorem natDigits_lt {n : Nat} (h : n < 10) : natDigits n = [Char.ofNat (48 + n)] := by
  rw [natDigits.eq_def]
  simp [h]

theorem natDigits_ge {n : Nat} (h : ¬ n < 10) :
    natDigits n = natDigits (n / 10) ++ [Char.ofNat (48 + n % 10)] := by
  rw [natDigits.eq_def]
  simp [h]

theorem parseNatAux_natDigits (n : Nat) : ∀ acc rest,
    parseNatAux acc (natDigits n ++ rest)
      = parseNatAux (acc * 10 ^ (natDigits n).length + n) rest := by
  induction n using Nat.strong_induction_on with
  | _ n ih =>
    intro acc rest
    by_cases h : n < 10
    · rw [natDigits_lt h]
      simp only [List.cons_append, List.nil_append, List.length_cons, List.length_nil]
      rw [parseNatAux]
      have hd := digit_toNat n h
      rw [if_pos (by omega)]
      rw [show acc * 10 + ((Char.ofNat (48 + n)).toNat - 48) = acc * 10 ^ (0 + 1) + n
          from by rw [hd]; ring_nf; omega]
    · rw [natDigits_ge h, List.append_assoc]
      rw [ih (n / 10) (by omega)]
      simp only [List.cons_append, List.nil_append, List.length_append, List.length_cons,
        List.length_nil]
      rw [parseNatAux]
      have hd := digit_toNat (n % 10) (by omega)
      rw [if_pos (by omega)]
      congr 1
      rw [hd]
      have hmod : 48 + n % 10 - 48 = n % 10 := by omega
      rw [hmod]
      have hpow : 10 ^ ((natDigits (n / 10)).length + (0 + 1))
          = 10 ^ (natDigits (n / 10)).length * 10 := by
        rw [pow_succ]
      rw [hpow]
      have hdm : n / 10 * 10 + n % 10 = n := by omega
      calc (acc * 10 ^ (natDigits (n / 10)).length + n / 10) * 10 + n % 10
          = acc * (10 ^ (natDigits (n / 10)).length * 10) + (n / 10 * 10 + n % 10) := by
            ring
        _ = acc * (10 ^ (natDigits (n / 10)).length * 10) + n := by rw [hdm]

theorem parseNatAux_stop (acc : Nat) (c : Char) (rest : List Char)
    (h : ¬ (48 ≤ c.toNat ∧ c.toNat ≤ 57)) : parseNatAux acc (c :: rest) = (acc, c :: rest) := by
  rw [parseNatAux]
  simp [h]

theorem natDigits_head (n : Nat) :
    ∃ c t, natDigits n = c :: t ∧ 48 ≤ c.toNat ∧ c.toNat ≤ 57 := by
  induction n using Nat.strong_induction_on with
  | _ n ih =>
    by_cases h : n < 10
    · refine ⟨Char.ofNat (48 + n), [], natDigits_lt h, ?_, ?_⟩ <;>
        (rw [digit_toNat n h]; omega)
    · obtain ⟨c, t, heq, h1, h2⟩ := ih (n / 10) (by omega)
      exact ⟨c, t ++ [Char.ofNat (48 + n % 10)], by rw [natDigits_ge h, heq]; rfl, h1, h2⟩

theorem parseNat1_natDigits (n : Nat) (c0 : Char) (rest : List Char)
    (hstop : ¬ (48 ≤ c0.toNat ∧ c0.toNat ≤ 57)) :
    parseNat1 (natDigits n ++ c0 :: rest) = some (n, c0 :: rest) := by
  obtain ⟨c, t, heq, h1, h2⟩ := natDigits_head n
  rw [heq]
  simp only [List.cons_append]
  rw [parseNat1]
  rw [if_pos (by simp [isDigitCh]; omega)]
  rw [show (c :: (t ++ c0 :: rest)) = natDigits n ++ c0 :: rest from by rw [heq]; rfl]
  rw [parseNatAux_natDigits n 0 (c0 :: rest)]
  rw [parseNatAux_stop _ _ _ hstop]
  simp

/-! ### TokenStore: `AuthToken::save` / `AuthToken::load` (src/auth.rs)

`save` serializes with `serde_json::to_string_pretty` and writes
`tokens.json`; `load` reads the file and parses with
`serde_json::from_str`.  The file system is modelled as the file's
contents (`none` = missing/unreadable, which `load` treats as absence). -/

/-- Literal text before the `access_token` value in the pretty JSON. -/
def tfSeg1 : List Char := ("\x7b\n  \"access_token\": \"").data

/-- Literal text between the `access_token` and `refresh_token` values. -/
def tfSeg2 : List Char := (",\n  \"refresh_token\": \"").data

/-- Literal text between the `refresh_token` and `expires_at` values. -/
def tfSeg3 : List Char := (",\n  \"expires_at\": ").data

/-- Literal text after the `expires_at` value. -/
def tfTail : List Char := ("\n\x7d").data

/-- The exact text `serde_json::to_string_pretty` produces for an
`AuthToken` (two-space indent, `": "` separators, escaped strings). -/
def tokenFileJson (t : AuthToken) : List Char :=
  tfSeg1 ++ escapeStr t.access_token.data ++ [Char.ofNat 34]
    ++ tfSeg2 ++ escapeStr t.refresh_token.data ++ [Char.ofNat 34]
    ++ tfSeg3 ++ natDigits t.expires_at ++ tfTail

/-- `serde_json::from_str::<AuthToken>`, restricted to the document shape
`to_string_pretty` emits (which is the only shape `load` ever reads back;
serde itself would also accept re-ordered fields and extra whitespace). -/
def parseTokenFile (l : List Char) : Option AuthToken :=
  (expectLit tfSeg1 l).bind fun l1 =>
  (parseStringBody l1).bind fun p1 =>
  (expectLit tfSeg2 p1.2).bind fun l2 =>
  (parseStringBody l2).bind fun p2 =>
  (expectLit tfSeg3 p2.2).bind fun l3 =>
  (parseNat1 l3).bind fun p3 =>
  if p3.2 = tfTail then some ⟨String.mk p1.1, String.mk p2.1, p3.1⟩ else none

/-- `AuthToken::save`: overwrite the token file with the pretty JSON. -/
def AuthToken.save (t : AuthToken) (_fs : Option (List Char)) : Option (List Char) :=
  some (tokenFileJson t)

/-- `AuthToken::load`: read and parse the token file; a missing, unreadable
or unparseable file is a load failure (`none`). -/
def AuthToken.load (fs : Option (List Char)) : Option AuthToken :=
  match fs with
  | none => none
  | some content => parseTokenFile content

theorem parseTokenFile_tokenFileJson (t : AuthToken) :
    parseTokenFile (tokenFileJson t) = some t := by
  unfold parseTokenFile tokenFileJson
  rw [show tfTail = Char.ofNat 10 :: [Char.ofNat 125] from by decide]
  simp only [List.append_assoc, List.singleton_append, List.cons_append, List.nil_append]
  rw [expectLit_append]
  simp only [Option.some_bind]
  rw [parseStringBody_escapeStr]
  simp only [Option.some_bind]
  rw [expectLit_append]
  simp only [Option.some_bind]
  rw [parseStringBody_escapeStr]
  simp only [Option.some_bind]
  rw [expectLit_append]
  simp only [Option.some_bind]
  rw [parseNat1_natDigits _ _ _ (by decide)]
  simp only [Option.some_bind]
  simp

/-- C4: for every well-formed credential `c` (arbitrary `access_token` and
`refresh_token` strings, arbitrary `expires_at`), `load` performed after
`save c` succeeds and returns `c` field for field. -/
theorem c4_save_load_roundtrip (t : AuthToken) (fs : Option (List Char)) :
    AuthToken.load (AuthToken.save t fs) = some t := by
  unfold AuthToken.save AuthToken.load
  exact parseTokenFile_tokenFileJson t

/-! ### PkceGenerator: SHA-256 (`sha2` crate), base64url without padding
(`base64::URL_SAFE_NO_PAD`), and the PKCE pair (src/auth.rs) -/

/-- Truncation to a 32-bit word. -/
def w32 (n : Nat) : Nat := n % 4294967296

/-- 32-bit rotate right by `k`. -/
def rotr32 (k x : Nat) : Nat := w32 (x / 2 ^ k + x * 2 ^ (32 - k))

/-- 32-bit logical shift right by `k`. -/
def shr32 (k x : Nat) : Nat := x / 2 ^ k

/-- 32-bit bitwise complement. -/
def not32 (x : Nat) : Nat := 4294967295 - w32 x

/-- SHA-256 `Ch` function. -/
def ch32 (x y z : Nat) : Nat := (x &&& y) ^^^ (not32 x &&& z)

/-- SHA-256 `Maj` function. -/
def maj32 (x y z : Nat) : Nat := (x &&& y) ^^^ (x &&& z) ^^^ (y &&& z)

/-- SHA-256 `Σ0`. -/
def bigSigma0 (x : Nat) : Nat := rotr32 2 x ^^^ rotr32 13 x ^^^ rotr32 22 x

/-- SHA-256 `Σ1`. -/
def bigSigma1 (x : Nat) : Nat := rotr32 6 x ^^^ rotr32 11 x ^^^ rotr32 25 x

/-- SHA-256 `σ0`. -/
def smallSigma0 (x : Nat) : Nat := rotr32 7 x ^^^ rotr32 18 x ^^^ shr32 3 x

/-- SHA-256 `σ1`. -/
def smallSigma1 (x : Nat) : Nat := rotr32 17 x ^^^ rotr32 19 x ^^^ shr32 10 x

/-- The 64 SHA-256 round constants of FIPS 180-4, written in decimal. -/
def sha256K : List Nat :=
  [1116352408, 1899447441, 3049323471, 3921009573, 961987163,
   1508970993, 2453635748, 2870763221, 3624381080, 310598401,
   607225278, 1426881987, 1925078388, 2162078206, 2614888103,
   3248222580, 3835390401, 4022224774, 264347078, 604807628,
   770255983, 1249150122, 1555081692, 1996064986, 2554220882,
   2821834349, 2952996808, 3210313671, 3336571891, 3584528711,
   113926993, 338241895, 666307205, 773529912, 1294757372,
   1396182291, 1695183700, 1986661051, 2177026350, 2456956037,
   2730485921, 2820302411, 3259730800, 3345764771, 3516065817,
   3600352804, 4094571909, 275423344, 430227734, 506948616,
   659060556, 883997877, 958139571, 1322822218, 1537002063,
   1747873779, 1955562222, 2024104815, 2227730452, 2361852424,
   2428436474, 2756734187, 3204031479, 3329325298]

/-- The SHA-256 initial hash state of FIPS 180-4, written in decimal. -/
def sha256H0 : List Nat :=
  [1779033703, 3144134277, 1013904242,
   2773480762, 1359893119, 2600822924,
   528734635, 1541459225]

/-- `count` big-endian bytes of `n`. -/
def bytesBE (count n : Nat) : List Nat :=
  (List.range count).map (fun i => n / 2 ^ (8 * (count - 1 - i)) % 256)

/-- SHA-256 message padding: `0x80`, zeros to 56 mod 64, 8-byte bit length. -/
def sha256Pad (msg : List Nat) : List Nat :=
  msg ++ [128] ++ List.replicate ((56 + 64 - (msg.length + 1) % 64) % 64) 0
    ++ bytesBE 8 (8 * msg.length)

/-- Split into `k` chunks of 64 bytes. -/
def chunksAux : Nat → List Nat → List (List Nat)
  | 0, _ => []
  | k + 1, l => l.take 64 :: chunksAux k (l.drop 64)

/-- Split a padded message into its 64-byte blocks. -/
def chunks64 (l : List Nat) : List (List Nat) := chunksAux (l.length / 64) l

/-- The 16 big-endian 32-bit words of one 64-byte block. -/
def wordsOfBlock (block : List Nat) : List Nat :=
  (List.range 16).map (fun i =>
    block.getD (4 * i) 0 * 16777216 + block.getD (4 * i + 1) 0 * 65536
      + block.getD (4 * i + 2) 0 * 256 + block.getD (4 * i + 3) 0)

/-- Extend the 16-word message schedule by `k` further words. -/
def extendSchedule (ws : List Nat) : Nat → List Nat
  | 0 => ws
  | k + 1 =>
    let prev := extendSchedule ws k
    prev ++ [w32 (smallSigma1 (prev.getD (prev.length - 2) 0)
      + prev.getD (prev.length - 7) 0
      + smallSigma0 (prev.getD (prev.length - 15) 0)
      + prev.getD (prev.length - 16) 0)]

/-- One SHA-256 round on the working state `[a,b,c,d,e,f,g,h]`. -/
def sha256Round (st : List Nat) (kw : Nat × Nat) : List Nat :=
  match st with
  | [a, b, c, d, e, f, g, h] =>
    let t1 := w32 (h + bigSigma1 e + ch32 e f g + kw.1 + kw.2)
    let t2 := w32 (bigSigma0 a + maj32 a b c)
    [w32 (t1 + t2), a, b, c, w32 (d + t1), e, f, g]
  | _ => st

/-- SHA-256 compression of one block into the running hash state. -/
def sha256Compress (hs : List Nat) (block : List Nat) : List Nat :=
  let ws := extendSchedule (wordsOfBlock block) 48
  let st := (sha256K.zip ws).foldl sha256Round hs
  (hs.zip st).map (fun p => w32 (p.1 + p.2))

/-- Full SHA-256: digest bytes of a byte message (the `sha2` crate's
`Sha256::digest`). -/
def sha256 (msg : List Nat) : List Nat :=
  ((chunks64 (sha256Pad msg)).foldl sha256Compress sha256H0).foldr
    (fun w acc => bytesBE 4 w ++ acc) []

/-- The URL-safe base64 alphabet (`A-Z`, `a-z`, `0-9`, `-`, `_`). -/
def b64urlChar (n : Nat) : Char :=
  if n < 26 then Char.ofNat (65 + n)
  else if n < 52 then Char.ofNat (97 + (n - 26))
  else if n < 62 then Char.ofNat (48 + (n - 52))
  else if n = 62 then '-' else '_'

/-- URL-safe base64 without padding (`base64::URL_SAFE_NO_PAD.encode`). -/
def base64urlNoPad : List Nat → List Char
  | [] => []
  | [b] => [b64urlChar (b / 4), b64urlChar (b % 4 * 16)]
  | [b, c] => [b64urlChar (b / 4), b64urlChar (b % 4 * 16 + c / 16), b64urlChar (c % 16 * 4)]
  | b :: c :: d :: rest =>
    b64urlChar (b / 4) :: b64urlChar (b % 4 * 16 + c / 16)
      :: b64urlChar (c % 16 * 4 + d / 64) :: b64urlChar (d % 64) :: base64urlNoPad rest

/-- UTF-8 encoding of one character (Rust `str::as_bytes` per scalar). -/
def utf8Char (c : Char) : List Nat :=
  if c.toNat < 128 then [c.toNat]
  else if c.toNat < 2048 then [192 + c.toNat / 64, 128 + c.toNat % 64]
  else if c.toNat < 65536 then
    [224 + c.toNat / 4096, 128 + c.toNat / 64 % 64, 128 + c.toNat % 64]
  else
    [240 + c.toNat / 262144, 128 + c.toNat / 4096 % 64, 128 + c.toNat / 64 % 64,
     128 + c.toNat % 64]

/-- The UTF-8 bytes of a string (Rust `str::as_bytes`). -/
def strUtf8 (s : String) : List Nat :=
  s.data.foldr (fun c acc => utf8Char c ++ acc) []

/-- Sanity check of the hash embedding: the RFC 6234 digest of `"abc"`. -/
theorem sha256_abc_vector :
    sha256 (strUtf8 "abc") =
      [0xba, 0x78, 0x16, 0xbf, 0x8f, 0x01, 0xcf, 0xea, 0x41, 0x41, 0x40, 0xde, 0x5d, 0xae, 0x22,
       0x23, 0xb0, 0x03, 0x61, 0xa3, 0x96, 0x17, 0x7a, 0x9c, 0xb4, 0x10, 0xff, 0x61, 0xf2, 0x00,
       0x15, 0xad] := by decide

/-- `Auth::generate_code_challenge` (src/auth.rs): hash the verifier's bytes
with SHA-256 and encode the digest as URL-safe unpadded base64. -/
def generate_code_challenge (verifier : String) : String :=
  String.mk (base64urlNoPad (sha256 (strUtf8 verifier)))

/-- `Auth::generate_code_verifier` (src/auth.rs): draw 32 bytes from the
CSPRNG (`rand::rng().random::<u8>()`, modelled as the byte stream `rng`)
and encode them as URL-safe unpadded base64. -/
def generate_code_verifier (rng : Nat → Nat) : String :=
  String.mk (base64urlNoPad ((List.range 32).map (fun i => rng i % 256)))

/-- The challenge derivation written from the spec's words: "the URL-safe,
unpadded base64 encoding of the SHA-256 digest of the verifier's byte
representation". -/
def challengeOfSpec (verifier : String) : String :=
  String.mk (base64urlNoPad (sha256 (strUtf8 verifier)))

/-- Sanity check of the PKCE pipeline: the RFC 7636 appendix B vector. -/
theorem pkce_rfc7636_vector :
    generate_code_challenge ("dBjftJeZ4CVP-mB92K27uhbUJU1p1r_wW1gFWFOEjXk")
      = ("E9Melhoa2OwvFrEMTJguCHaoeK1t8URWbuGJSstw-cM") := by decide

/-- C3: every challenge equals the URL-safe unpadded base64 encoding of the
SHA-256 digest of the verifier's bytes (and, being a pure function of the
verifier, repeated derivations from the same verifier coincide); the
verifier is the URL-safe unpadded base64 encoding of exactly 32 bytes drawn
from the randomness source (32 ≥ the required 32; the cryptographic quality
of `rand::rng()` itself is outside the embedding). -/
theorem c3_pkce_generation (v : String) (rng : Nat → Nat) :
    generate_code_challenge v = challengeOfSpec v
    ∧ generate_code_challenge v = generate_code_challenge v
    ∧ (∃ bytes : List Nat, 32 ≤ bytes.length ∧ (∀ b ∈ bytes, b < 256)
        ∧ bytes = (List.range 32).map (fun i => rng i % 256)
        ∧ generate_code_verifier rng = String.mk (base64urlNoPad bytes)) := by
  refine ⟨rfl, rfl, (List.range 32).map (fun i => rng i % 256), ?_, ?_, rfl, rfl⟩
  · simp
  · intro b hb
    simp only [List.mem_map] at hb
    obtain ⟨i, _, hi⟩ := hb
    omega

/-! ### TokenExchanger: `Auth::exchange_code_for_token` and
`AuthToken::refresh_access_token` (src/auth.rs)

Both functions POST once to the token endpoint and pipe the response
straight into `Response::json` — the source never inspects
`response.status()`.  The network interaction is an oracle (`sendResult`);
a transport failure is the `Err` case of the oracle, exactly as
`send().await?` propagates it. -/

instance {ε α : Type} [DecidableEq ε] [DecidableEq α] : DecidableEq (Except ε α) := fun x y =>
  match x, y with
  | .ok a, .ok b => if h : a = b then isTrue (by rw [h]) else isFalse (by simp [h])
  | .error a, .error b => if h : a = b then isTrue (by rw [h]) else isFalse (by simp [h])
  | .ok _, .error _ => isFalse (by simp)
  | .error _, .ok _ => isFalse (by simp)

/-- Error taxonomy of the subsystem (§7 of the spec).  `apiRejected` is the
shape the spec prescribes for non-success HTTP statuses; the auth module's
code never constructs it. -/
inductive AuthErr where
  | ioFailure (msg : String)
  | networkFailure (msg : String)
  | apiRejected (status : Nat) (body : String)
  | malformedResponse (msg : String)
  | callbackErr (msg : String)
  | openFailure (msg : String)
  deriving DecidableEq, Repr

/-- An HTTP response from the token endpoint. -/
structure HttpResponse where
  status : Nat
  body : String
  deriving DecidableEq, Repr

/-- `struct TokenResponse` (src/auth.rs): `refresh_token` is mandatory. -/
structure TokenResponse where
  access_token : String
  refresh_token : String
  expires_in : Nat
  deriving DecidableEq, Repr

/-- `struct RefreshResponse` (src/auth.rs): `refresh_token` is optional —
"Sometimes Spotify returns a new one". -/
structure RefreshResponse where
  access_token : String
  refresh_token : Option String
  expires_in : Nat
  deriving DecidableEq, Repr

/-- Literal text before the `access_token` value in a compact token body. -/
def trSeg1 : List Char := ("\x7b\"access_token\":\"").data

/-- Literal text before the `refresh_token` value in a compact token body. -/
def trSegR : List Char := (",\"refresh_token\":\"").data

/-- Literal text before the `expires_in` value in a compact token body. -/
def trSegE : List Char := (",\"expires_in\":").data

/-- `serde_json` deserialization of a `TokenResponse`, restricted to the
compact canonical field order (serde itself would also accept re-ordered
fields and whitespace; the restriction is immaterial to the claims, which
quantify over the deserialized value or use canonical bodies). -/
def parseTokenResponseJson (l : List Char) : Option TokenResponse :=
  (expectLit trSeg1 l).bind fun l1 =>
  (parseStringBody l1).bind fun p1 =>
  (expectLit trSegR p1.2).bind fun l2 =>
  (parseStringBody l2).bind fun p2 =>
  (expectLit trSegE p2.2).bind fun l3 =>
  (parseNat1 l3).bind fun p3 =>
  if p3.2 = [Char.ofNat 125] then some ⟨String.mk p1.1, String.mk p2.1, p3.1⟩ else none

/-- `serde_json` deserialization of a `RefreshResponse`: the
`refresh_token` member may be absent, which serde maps to `None`. -/
def parseRefreshResponseJson (l : List Char) : Option RefreshResponse :=
  (expectLit trSeg1 l).bind fun l1 =>
  (parseStringBody l1).bind fun p1 =>
  match expectLit trSegR p1.2 with
  | some l2 =>
    (parseStringBody l2).bind fun p2 =>
    (expectLit trSegE p2.2).bind fun l3 =>
    (parseNat1 l3).bind fun p3 =>
    if p3.2 = [Char.ofNat 125] then some ⟨String.mk p1.1, some (String.mk p2.1), p3.1⟩
    else none
  | none =>
    (expectLit trSegE p1.2).bind fun l3 =>
    (parseNat1 l3).bind fun p3 =>
    if p3.2 = [Char.ofNat 125] then some ⟨String.mk p1.1, none, p3.1⟩ else none

/-- `Auth::exchange_code_for_token` (src/auth.rs): one POST (the oracle's
response), then `.json::<TokenResponse>()`.  The HTTP status is never
inspected; an undecodable body surfaces as a decode error that carries
neither the status nor the body. -/
def exchange_code_for_token (sendResult : Except AuthErr HttpResponse) :
    Except AuthErr TokenResponse :=
  match sendResult with
  | .error e => .error e
  | .ok resp =>
    match parseTokenResponseJson resp.body.data with
    | some tr => .ok tr
    | none => .error (.malformedResponse ("error decoding response body"))

/-- `AuthToken::refresh_access_token` (src/auth.rs): one POST with the
stored refresh token, then `.json::<RefreshResponse>()`; the new credential
reuses the sent refresh token when the response omits one
(`unwrap_or_else`), and `expires_at = now + expires_in`.  As in the
exchange, the HTTP status is never inspected. -/
def refresh_access_token (sent_refresh_token : String) (now : Nat)
    (sendResult : Except AuthErr HttpResponse) : Except AuthErr AuthToken :=
  match sendResult with
  | .error e => .error e
  | .ok resp =>
    match parseRefreshResponseJson resp.body.data with
    | none => .error (.malformedResponse ("error decoding response body"))
    | some rr =>
      .ok { access_token := rr.access_token,
            refresh_token := rr.refresh_token.getD sent_refresh_token,
            expires_at := now + rr.expires_in }

/-- C5: whenever the refresh response deserializes with no `refresh_token`
member, the resulting credential keeps the refresh token that was sent in
the request; when a new one is present, it is used instead. -/
theorem c5_refresh_token_retention (sent : String) (now status : Nat) (body : String)
    (rr : RefreshResponse) (hparse : parseRefreshResponseJson body.data = some rr) :
    (rr.refresh_token = none →
      refresh_access_token sent now (.ok ⟨status, body⟩)
        = .ok ⟨rr.access_token, sent, now + rr.expires_in⟩)
    ∧ ∀ newTok, rr.refresh_token = some newTok →
      refresh_access_token sent now (.ok ⟨status, body⟩)
        = .ok ⟨rr.access_token, newTok, now + rr.expires_in⟩ := by
  unfold refresh_access_token
  simp only [hparse]
  constructor
  · intro h
    simp [h]
  · intro newTok h
    simp [h]

theorem c5_refresh_token_retention_witness :
    (parseRefreshResponseJson (("\x7b\"access_token\":\"AT2\",\"expires_in\":3600\x7d").data)
        = some ⟨"AT2", none, 3600⟩)
    ∧ refresh_access_token ("RT1") 1000
        (.ok ⟨200, "\x7b\"access_token\":\"AT2\",\"expires_in\":3600\x7d"⟩)
        = .ok ⟨"AT2", "RT1", 1000 + 3600⟩ :=
  ⟨by decide,
    (c5_refresh_token_retention ("RT1") 1000 200
      ("\x7b\"access_token\":\"AT2\",\"expires_in\":3600\x7d")
      ⟨"AT2", none, 3600⟩ (by decide)).1 rfl⟩

/-- C9 (counterexample): the claim requires a non-success status to yield an
API error carrying the status and the body verbatim.  At status 400 with
body `"oops"` both functions instead return a JSON-decode error that carries
neither; and a status-500 response whose body happens to decode as a token
response even succeeds. -/
theorem c9_status_ignored_counterexample :
    exchange_code_for_token (.ok ⟨400, "oops"⟩)
        = .error (.malformedResponse ("error decoding response body"))
    ∧ exchange_code_for_token (.ok ⟨400, "oops"⟩) ≠ .error (.apiRejected 400 ("oops"))
    ∧ exchange_code_for_token
        (.ok ⟨500, "\x7b\"access_token\":\"AT\",\"refresh_token\":\"RT\",\"expires_in\":3600\x7d"⟩)
        = .ok ⟨"AT", "RT", 3600⟩
    ∧ refresh_access_token ("RT0") 0 (.ok ⟨400, "oops"⟩)
        = .error (.malformedResponse ("error decoding response body"))
    ∧ refresh_access_token ("RT0") 0 (.ok ⟨400, "oops"⟩)
        ≠ .error (.apiRejected 400 ("oops")) := by
  decide

/-- C9 (amended): neither `exchange_code_for_token` nor
`refresh_access_token` inspects the HTTP status at all — the result depends
only on the body.  A body that fails to decode yields a constant JSON-decode
error carrying neither status nor body (and a decodable body succeeds even
on a non-success status); nothing is retried, the single response of the
single POST being all that is consumed. -/
theorem c9_no_status_check (s1 s2 : Nat) (body sent : String) (now : Nat) :
    exchange_code_for_token (.ok ⟨s1, body⟩) = exchange_code_for_token (.ok ⟨s2, body⟩)
    ∧ refresh_access_token sent now (.ok ⟨s1, body⟩)
        = refresh_access_token sent now (.ok ⟨s2, body⟩)
    ∧ (parseTokenResponseJson body.data = none →
        exchange_code_for_token (.ok ⟨s1, body⟩)
          = .error (.malformedResponse ("error decoding response body")))
    ∧ (parseRefreshResponseJson body.data = none →
        refresh_access_token sent now (.ok ⟨s1, body⟩)
          = .error (.malformedResponse ("error decoding response body"))) := by
  refine ⟨rfl, rfl, ?_, ?_⟩
  · intro h
    unfold exchange_code_for_token
    simp [h]
  · intro h
    unfold refresh_access_token
    simp [h]

theorem c9_no_status_check_witness :
    (exchange_code_for_token (.ok ⟨200, "nope"⟩) = exchange_code_for_token (.ok ⟨404, "nope"⟩)
    ∧ refresh_access_token ("r") 0 (.ok ⟨200, "nope"⟩)
        = refresh_access_token ("r") 0 (.ok ⟨404, "nope"⟩)
    ∧ (parseTokenResponseJson ("nope").data = none →
        exchange_code_for_token (.ok ⟨200, "nope"⟩)
          = .error (.malformedResponse ("error decoding response body")))
    ∧ (parseRefreshResponseJson ("nope").data = none →
        refresh_access_token ("r") 0 (.ok ⟨200, "nope"⟩)
          = .error (.malformedResponse ("error decoding response body"))))
    ∧ parseTokenResponseJson ("nope").data = none
    ∧ parseRefreshResponseJson ("nope").data = none :=
  ⟨c9_no_status_check 200 404 ("nope") ("r") 0, by decide, by decide⟩

/-! ### CallbackListener: `Auth::wait_for_callback` (src/auth.rs)

The source binds `tiny_http` on `127.0.0.1:8888` with `.unwrap()` (a bind
failure panics), accepts exactly one request with `server.recv()?`, looks
for a `code` query parameter, and only on the success path responds with
the fixed page before returning.  The inbound request is modelled by its
percent-decoded query pairs. -/

/-- Externally visible actions of the callback listener. -/
inductive CbEvent where
  | bindSocket
  | recvRequest
  | respond (page : String)
  deriving DecidableEq, Repr

/-- Result of the listener: a returned authorization code, a returned error
value, or a panic (which is not an error value handed to the caller). -/
inductive CbOutcome where
  | ok (code : String)
  | err (e : AuthErr)
  | panicked (msg : String)
  deriving DecidableEq, Repr

/-- Does the outcome hand an error value to the caller? -/
def CbOutcome.isErrValue : CbOutcome → Bool
  | .err _ => true
  | _ => false

/-- The fixed human-readable success page of `wait_for_callback`. -/
def successPage : String := "Authorization successful! You can close this window."

/-- `Auth::wait_for_callback`: `bindResult` is the oracle for
`tiny_http::Server::http(..)` (the source unwraps it), `recvResult` for
`server.recv()?` plus the `Url::parse(..)?` step, yielding the query pairs
of the single accepted request. -/
def wait_for_callback (bindResult : Except String Unit)
    (recvResult : Except AuthErr (List (String × String))) :
    CbOutcome × List CbEvent :=
  match bindResult with
  | .error e => (.panicked e, [.bindSocket])
  | .ok _ =>
    match recvResult with
    | .error e => (.err e, [.bindSocket, .recvRequest])
    | .ok query =>
      match query.find? (fun p => p.1 == "code") with
      | none => (.err (.callbackErr ("No code found in callback")), [.bindSocket, .recvRequest])
      | some p => (.ok p.2, [.bindSocket, .recvRequest, .respond successPage])

/-- Does `needle` start `hay`? -/
def startsWithL : List Char → List Char → Bool
  | [], _ => true
  | _ :: _, [] => false
  | a :: as, b :: bs => a == b && startsWithL as bs

/-- Does `needle` occur contiguously inside `hay`? -/
def hasSubstr (needle hay : List Char) : Bool :=
  startsWithL needle hay ||
    match hay with
    | [] => false
    | _ :: t => hasSubstr needle t

/-- Does the message `msg` carry the text `txt` anywhere inside it? -/
def msgCarries (msg txt : String) : Bool := hasSubstr txt.data msg.data

/-! ### `Auth::perform_oauth` (src/auth.rs) -/

/-- Externally visible actions of one authorization attempt. -/
inductive OauthEvent where
  | browserOpen
  | callbackWait
  | exchangeRequest (code : String)
  deriving DecidableEq, Repr

/-- Result of one authorization attempt. -/
inductive FlowOutcome where
  | ok (t : AuthToken)
  | err (e : AuthErr)
  | panicked (msg : String)
  deriving DecidableEq, Repr

/-- Oracle data for one authorization attempt: the browser open
(`open::that`), the listener's bind and accept, and the token endpoint's
response to the exchange POST, keyed by the submitted code. -/
structure OauthEnv where
  openResult : Except AuthErr Unit
  bindResult : Except String Unit
  recvResult : Except AuthErr (List (String × String))
  tokenEndpoint : String → Except AuthErr HttpResponse
  now : Nat

/-- `Auth::perform_oauth`: open the browser, wait for the single callback,
exchange the code, and stamp `expires_at = now + expires_in`. -/
def perform_oauth (env : OauthEnv) : FlowOutcome × List OauthEvent :=
  match env.openResult with
  | .error e => (.err e, [.browserOpen])
  | .ok _ =>
    match wait_for_callback env.bindResult env.recvResult with
    | (.panicked m, _) => (.panicked m, [.browserOpen, .callbackWait])
    | (.err e, _) => (.err e, [.browserOpen, .callbackWait])
    | (.ok code, _) =>
      match exchange_code_for_token (env.tokenEndpoint code) with
      | .error e => (.err e, [.browserOpen, .callbackWait, .exchangeRequest code])
      | .ok tr =>
        (.ok ⟨tr.access_token, tr.refresh_token, env.now + tr.expires_in⟩,
         [.browserOpen, .callbackWait, .exchangeRequest code])

/-- C6 (counterexample): the claim requires the rejection error to carry the
provider-supplied error text when available.  On the callback
`?error=access_denied` the code fails with the fixed message "No code found
in callback", which does not carry `access_denied`. -/
theorem c6_error_text_dropped_counterexample :
    wait_for_callback (.ok ()) (.ok [("error", "access_denied")])
        = (.err (.callbackErr ("No code found in callback")), [.bindSocket, .recvRequest])
    ∧ msgCarries ("No code found in callback") ("access_denied") = false := by
  decide

/-- C6 (amended): a callback whose query has no `code` parameter (including
`?error=access_denied`) makes `wait_for_callback` fail with the fixed
"No code found in callback" error — the provider's `error` text is ignored,
not carried — and `perform_oauth` then surfaces that error without ever
invoking the token exchange. -/
theorem c6_missing_code_rejected (query : List (String × String))
    (hnone : query.find? (fun p => p.1 == "code") = none) :
    wait_for_callback (.ok ()) (.ok query)
        = (.err (.callbackErr ("No code found in callback")), [.bindSocket, .recvRequest])
    ∧ ∀ (endPt : String → Except AuthErr HttpResponse) (now : Nat) (code : String),
        (perform_oauth ⟨.ok (), .ok (), .ok query, endPt, now⟩).1
            = .err (.callbackErr ("No code found in callback"))
        ∧ OauthEvent.exchangeRequest code
            ∉ (perform_oauth ⟨.ok (), .ok (), .ok query, endPt, now⟩).2 := by
  constructor
  · unfold wait_for_callback
    simp [hnone]
  · intro endPt now code
    unfold perform_oauth wait_for_callback
    simp [hnone]

theorem c6_missing_code_rejected_witness :
    ([("error", "access_denied")].find? (fun p => p.1 == "code") = none)
    ∧ (wait_for_callback (.ok ()) (.ok [("error", "access_denied")])
        = (.err (.callbackErr ("No code found in callback")), [.bindSocket, .recvRequest])
    ∧ ∀ (endPt : String → Except AuthErr HttpResponse) (now : Nat) (code : String),
        (perform_oauth ⟨.ok (), .ok (), .ok [("error", "access_denied")], endPt, now⟩).1
            = .err (.callbackErr ("No code found in callback"))
        ∧ OauthEvent.exchangeRequest code
            ∉ (perform_oauth ⟨.ok (), .ok (), .ok [("error", "access_denied")], endPt, now⟩).2) :=
  ⟨by decide, c6_missing_code_rejected [("error", "access_denied")] (by decide)⟩

/-- C7 (counterexample): the claim requires the success page to be sent for
every accepted request regardless of outcome.  On the accepted callback
`?error=access_denied` the code returns early from the missing-`code`
`ok_or` and never responds. -/
theorem c7_no_respond_on_missing_code_counterexample :
    CbEvent.respond successPage
        ∉ (wait_for_callback (.ok ()) (.ok [("error", "access_denied")])).2
    ∧ (wait_for_callback (.ok ()) (.ok [("error", "access_denied")])).2
        = [CbEvent.bindSocket, CbEvent.recvRequest] := by
  decide

/-- C7 (amended): the listener responds with the fixed success page only on
the success path — when the accepted request carries a `code` parameter, the
page is sent before the code is returned; a request without one is answered
by nothing.  In every case the listener accepts at most one request and
binds at most once. -/
theorem c7_respond_on_success_only (bindR : Except String Unit)
    (recvR : Except AuthErr (List (String × String)))
    (query : List (String × String)) (p : String × String)
    (hfind : query.find? (fun q => q.1 == "code") = some p) :
    wait_for_callback (.ok ()) (.ok query)
        = (.ok p.2, [.bindSocket, .recvRequest, .respond successPage])
    ∧ ((wait_for_callback bindR recvR).2).count CbEvent.recvRequest ≤ 1
    ∧ ((wait_for_callback bindR recvR).2).count CbEvent.bindSocket ≤ 1 := by
  refine ⟨?_, ?_, ?_⟩
  · unfold wait_for_callback
    simp [hfind]
  · cases bindR with
    | error e => simp [wait_for_callback]
    | ok u =>
      cases recvR with
      | error e => simp [wait_for_callback]
      | ok q =>
        cases hq : q.find? (fun r => r.1 == "code") with
        | none => simp [wait_for_callback, hq]
        | some r => simp [wait_for_callback, hq]
  · cases bindR with
    | error e => simp [wait_for_callback]
    | ok u =>
      cases recvR with
      | error e => simp [wait_for_callback]
      | ok q =>
        cases hq : q.find? (fun r => r.1 == "code") with
        | none => simp [wait_for_callback, hq]
        | some r => simp [wait_for_callback, hq]

theorem c7_respond_on_success_only_witness :
    ([("code", "ABC")].find? (fun q => q.1 == "code") = some ("code", "ABC"))
    ∧ (wait_for_callback (.ok ()) (.ok [("code", "ABC")])
        = (.ok ("ABC"), [.bindSocket, .recvRequest, .respond successPage])
    ∧ ((wait_for_callback (.ok ()) (.ok [("code", "ABC")])).2).count CbEvent.recvRequest ≤ 1
    ∧ ((wait_for_callback (.ok ()) (.ok [("code", "ABC")])).2).count CbEvent.bindSocket ≤ 1) :=
  ⟨by decide,
    c7_respond_on_success_only (.ok ()) (.ok [("code", "ABC")])
      [("code", "ABC")] ("code", "ABC") (by decide)⟩

/-- C8 (counterexample): the claim requires a bind failure to be reported to
the caller as an error value.  The source unwraps the bind result, so at a
failing bind the function panics — no error value is produced. -/
theorem c8_bind_failure_panics_counterexample :
    wait_for_callback (.error ("Address already in use")) (.ok [])
        = (.panicked ("Address already in use"), [CbEvent.bindSocket])
    ∧ CbOutcome.isErrValue
        (wait_for_callback (.error ("Address already in use")) (.ok [])).1 = false := by
  decide

/-- C8 (amended): a failing bind of `127.0.0.1:8888` terminates
`wait_for_callback` by panic (the `.unwrap()` on `Server::http`), carrying
the bind error's message but not returning an error value; the bind is
attempted exactly once and never retried. -/
theorem c8_bind_failure_no_retry (e : String)
    (recvR : Except AuthErr (List (String × String))) :
    wait_for_callback (.error e) recvR = (.panicked e, [CbEvent.bindSocket])
    ∧ ((wait_for_callback (.error e) recvR).2).count CbEvent.bindSocket = 1
    ∧ CbOutcome.isErrValue (wait_for_callback (.error e) recvR).1 = false := by
  refine ⟨rfl, ?_, rfl⟩
  simp [wait_for_callback]

/-! ### TokenLifecycleManager: `AuthToken::get_valid_token` (src/auth.rs) -/

/-- Externally visible actions of one `get_valid_token` invocation:
a refresh POST to the token endpoint (with the submitted refresh token),
a write of the token file, or a run of the full authorization-code flow. -/
inductive TokenEvent where
  | refreshRequest (refresh_token : String)
  | saveFile (t : AuthToken)
  | oauthFlow
  deriving DecidableEq, Repr

/-- Result of one `get_valid_token` invocation. -/
inductive RunOutcome where
  | ok (access_token : String)
  | err (e : AuthErr)
  | panicked (msg : String)
  deriving DecidableEq, Repr

/-- Oracle data for one `get_valid_token` invocation: the stored-credential
load result (`none` = missing/unreadable/unparseable file), the current
time, the token endpoint's response to a refresh POST, the token-file write
result, and the oracle data of a potential authorization-code flow. -/
structure LifecycleEnv where
  loadResult : Option AuthToken
  now : Nat
  refreshEndpoint : String → Except AuthErr HttpResponse
  saveResult : AuthToken → Except AuthErr Unit
  oauthEnv : OauthEnv

/-- `AuthToken::get_valid_token`: load; if fresh return the stored access
token unchanged; if stale refresh with the stored refresh token and save;
if the load failed run the full authorization flow and save.  Every `?`
failure is terminal for the invocation. -/
def get_valid_token (env : LifecycleEnv) : RunOutcome × List TokenEvent :=
  match env.loadResult with
  | some tok =>
    if tok.is_expired env.now then
      match refresh_access_token tok.refresh_token env.now
          (env.refreshEndpoint tok.refresh_token) with
      | .error e => (.err e, [.refreshRequest tok.refresh_token])
      | .ok fresh =>
        match env.saveResult fresh with
        | .error e => (.err e, [.refreshRequest tok.refresh_token, .saveFile fresh])
        | .ok _ => (.ok fresh.access_token, [.refreshRequest tok.refresh_token, .saveFile fresh])
    else (.ok tok.access_token, [])
  | none =>
    match perform_oauth env.oauthEnv with
    | (.panicked m, _) => (.panicked m, [.oauthFlow])
    | (.err e, _) => (.err e, [.oauthFlow])
    | (.ok tok, _) =>
      match env.saveResult tok with
      | .error e => (.err e, [.oauthFlow, .saveFile tok])
      | .ok _ => (.ok tok.access_token, [.oauthFlow, .saveFile tok])

/-- C1: the four lifecycle paths of `get_valid_token`.  A fresh stored
credential is returned with no token-endpoint request and no file write; a
stale one triggers exactly one refresh with the stored refresh token and a
save of the refreshed credential before its access token is returned; a
refresh failure is surfaced as the invocation's error with no fallback to a
fresh authorization flow (no `oauthFlow` event); a failed load runs the full
authorization flow and saves its result. -/
theorem c1_get_valid_token_lifecycle (env : LifecycleEnv) (tok : AuthToken) :
    (env.loadResult = some tok → tok.is_expired env.now = false →
        get_valid_token env = (.ok tok.access_token, []))
    ∧ (env.loadResult = some tok → tok.is_expired env.now = true →
        ∀ fresh, refresh_access_token tok.refresh_token env.now
            (env.refreshEndpoint tok.refresh_token) = .ok fresh →
          env.saveResult fresh = .ok () →
          get_valid_token env
            = (.ok fresh.access_token, [.refreshRequest tok.refresh_token, .saveFile fresh]))
    ∧ (env.loadResult = some tok → tok.is_expired env.now = true →
        ∀ e, refresh_access_token tok.refresh_token env.now
            (env.refreshEndpoint tok.refresh_token) = .error e →
          get_valid_token env = (.err e, [.refreshRequest tok.refresh_token]))
    ∧ (env.loadResult = none →
        ∀ t2, (perform_oauth env.oauthEnv).1 = .ok t2 → env.saveResult t2 = .ok () →
          get_valid_token env = (.ok t2.access_token, [.oauthFlow, .saveFile t2])) := by
  refine ⟨?_, ?_, ?_, ?_⟩
  · intro hload hfresh
    unfold get_valid_token
    simp [hload, hfresh]
  · intro hload hstale fresh hrefresh hsave
    unfold get_valid_token
    simp [hload, hstale, hrefresh, hsave]
  · intro hload hstale e hrefresh
    unfold get_valid_token
    simp [hload, hstale, hrefresh]
  · intro hload t2 hoauth hsave
    unfold get_valid_token
    rcases hpo : perform_oauth env.oauthEnv with ⟨out, evs⟩
    rw [hpo] at hoauth
    simp only at hoauth
    subst hoauth
    simp [hload, hpo, hsave]

/-- A token endpoint that always fails with a network error. -/
def endpointDown : String → Except AuthErr HttpResponse :=
  fun _ => .error (.networkFailure ("down"))

/-- An authorization-flow environment whose callback immediately delivers
`code=ABC` and whose exchange succeeds. -/
def oauthEnvOk : OauthEnv :=
  ⟨.ok (), .ok (), .ok [("code", "ABC")],
    fun _ => .ok ⟨200,
      "\x7b\"access_token\":\"ATO\",\"refresh_token\":\"RTO\",\"expires_in\":120\x7d"⟩, 5⟩

/-- A stored, still-fresh credential at `now = 0`. -/
def envFresh : LifecycleEnv :=
  ⟨some ⟨"AT", "RT", 1000⟩, 0, endpointDown, fun _ => .ok (), oauthEnvOk⟩

/-- A stored, stale credential whose refresh succeeds (the refresh response
omits `refresh_token`). -/
def envStale : LifecycleEnv :=
  ⟨some ⟨"AT", "RT", 1000⟩, 1100,
    fun _ => .ok ⟨200, "\x7b\"access_token\":\"AT2\",\"expires_in\":3600\x7d"⟩,
    fun _ => .ok (), oauthEnvOk⟩

/-- A stored, stale credential whose refresh fails on the network. -/
def envRefreshFail : LifecycleEnv :=
  ⟨some ⟨"AT", "RT", 1000⟩, 1100, endpointDown, fun _ => .ok (), oauthEnvOk⟩

/-- No stored credential; the full authorization flow succeeds. -/
def envCold : LifecycleEnv :=
  ⟨none, 5, endpointDown, fun _ => .ok (), oauthEnvOk⟩

theorem c1_get_valid_token_lifecycle_witness :
    get_valid_token envFresh = (.ok ("AT"), [])
    ∧ get_valid_token envStale
        = (.ok ("AT2"), [.refreshRequest ("RT"), .saveFile ⟨"AT2", "RT", 4700⟩])
    ∧ get_valid_token envRefreshFail
        = (.err (.networkFailure ("down")), [.refreshRequest ("RT")])
    ∧ get_valid_token envCold
        = (.ok ("ATO"), [.oauthFlow, .saveFile ⟨"ATO", "RTO", 125⟩]) :=
  ⟨(c1_get_valid_token_lifecycle envFresh ⟨"AT", "RT", 1000⟩).1 rfl (by decide),
   (c1_get_valid_token_lifecycle envStale ⟨"AT", "RT", 1000⟩).2.1 rfl (by decide)
     ⟨"AT2", "RT", 4700⟩ (by decide) rfl,
   (c1_get_valid_token_lifecycle envRefreshFail ⟨"AT", "RT", 1000⟩).2.2.1 rfl (by decide)
     (.networkFailure ("down")) (by decide),
   (c1_get_valid_token_lifecycle envCold ⟨"AT", "RT", 1000⟩).2.2.2 rfl
     ⟨"ATO", "RTO", 125⟩ (by decide) rfl⟩

/-! ### Api: `Api::fetch_user_top_artists` / `fetch_user_top_tracks`
(src/api.rs) -/

/-- `enum TimeRange` (src/config.rs) with its strum `to_string` values. -/
inductive TimeRange where
  | Short
  | Medium
  | Long
  deriving DecidableEq, Repr

/-- The strum `Display` of a `TimeRange`. -/
def TimeRange.toStr : TimeRange → String
  | .Short => "short_term"
  | .Medium => "medium_term"
  | .Long => "long_term"

/-- `struct Image` (src/api.rs). -/
structure Image where
  url : String
  height : Nat
  width : Nat
  deriving DecidableEq, Repr

/-- `struct Artist` (src/api.rs). -/
structure Artist where
  name : String
  images : List Image
  deriving DecidableEq, Repr

/-- `struct SimpleArtist` (src/api.rs). -/
structure SimpleArtist where
  name : String
  deriving DecidableEq, Repr

/-- `struct Album` (src/api.rs). -/
structure Album where
  name : String
  images : List Image
  deriving DecidableEq, Repr

/-- `struct Track` (src/api.rs). -/
structure Track where
  name : String
  artists : List SimpleArtist
  album : Album
  deriving DecidableEq, Repr

/-- `struct Api` (src/api.rs). -/
structure Api where
  access_token : String
  time_range : TimeRange

/-- Externally visible actions of the data-fetching client. -/
inductive ApiEvent where
  | httpGet (url : String)
  deriving DecidableEq, Repr

/-- Decimal rendering of a `Nat` (Rust's `u32`/status `to_string`). -/
def natToStr (n : Nat) : String := String.mk (natDigits n)

/-- `Api::build_url` (src/api.rs): the `url` crate appends the first query
pair after `?` and the second after `&`; percent-encoding is the identity
on the values used here. -/
def Api.build_url (api : Api) (endpoint : String) (limit : Nat) : String :=
  ("https://api.spotify.com/v1/me/top/") ++ endpoint ++ ("?time_range=")
    ++ api.time_range.toStr ++ ("&limit=") ++ natToStr limit

/-- `reqwest::StatusCode::is_success`. -/
def statusIsSuccess (s : Nat) : Bool := decide (200 ≤ s ∧ s < 300)

/-- `Api::fetch_spotify_api` (src/api.rs): unlike the auth module, this one
does check the status and wraps status and body into the error text
(`natToStr` abbreviates reqwest's status `Display`). -/
def fetch_spotify_api {α : Type} (resp : HttpResponse) (decode : String → Option α) :
    Except String α :=
  if ¬ statusIsSuccess resp.status then
    .error (("API error ") ++ natToStr resp.status ++ (": ") ++ resp.body)
  else
    match decode resp.body with
    | some v => .ok v
    | none => .error ("error decoding response body")

/-- `Api::fetch_user_top_artists` (src/api.rs): `limit == 0` short-circuits
to an empty list before any URL is built or any request is sent; `decode`
stands for the serde extraction of `TopArtistsResponse.items`. -/
def Api.fetch_user_top_artists (api : Api) (limit : Nat)
    (http : String → HttpResponse) (decode : String → Option (List Artist)) :
    Except String (List Artist) × List ApiEvent :=
  if limit = 0 then (.ok [], [])
  else
    let url := api.build_url ("artists") limit
    (fetch_spotify_api (http url) decode, [.httpGet url])

/-- `Api::fetch_user_top_tracks` (src/api.rs): same shape for tracks,
`decode` standing for the serde extraction of `TopTracksResponse.items`. -/
def Api.fetch_user_top_tracks (api : Api) (limit : Nat)
    (http : String → HttpResponse) (decode : String → Option (List Track)) :
    Except String (List Track) × List ApiEvent :=
  if limit = 0 then (.ok [], [])
  else
    let url := api.build_url ("tracks") limit
    (fetch_spotify_api (http url) decode, [.httpGet url])

/-- C10: with `limit == 0`, both fetchers return `Ok` with an empty list
and perform no HTTP request at all, for every access token, time range and
network behaviour. -/
theorem c10_zero_limit_no_request (api : Api) (http : String → HttpResponse)
    (decodeA : String → Option (List Artist)) (decodeT : String → Option (List Track)) :
    api.fetch_user_top_artists 0 http decodeA = (.ok [], [])
    ∧ api.fetch_user_top_tracks 0 http decodeT = (.ok [], []) :=
  ⟨rfl, rfl⟩

end SpotifyFetch
